import Mathlib

/-!
Verification of the static security analysis engine of the
secure-code-performance-dashboard repository (src/report.py).

The embedding models `analyze_python_security`, `analyze_sql_security`
and `generate_security_report`. External library calls (file reading via
`open`, Python's `ast.parse`, `sqlparse.parse`) are modelled as explicit
inputs: the file read is an `Except String String` (an error message or
the file's content), the Python parse is an `Option (List PyCall)`
(`none` models a parse failure raising inside the inner `try`, `some
calls` the list of call-expression nodes produced by `ast.walk` in walk
order), and the SQL parse is an `Option (List String)` (`none` models a
raising `sqlparse.parse`, `some types` the list of `stmt.get_type()`
values of the parsed statements).
-/

/-- The report dictionary built by the two analyzers in src/report.py:
keys security_issues, vulnerability_count, risk_level, security_score,
plus the optional error key set only on an analysis fault. -/
structure SecurityReport where
  security_issues : List String
  vulnerability_count : Nat
  risk_level : String
  security_score : Int
  error : Option String
deriving DecidableEq, Repr

/-- The initial dictionary literal at the top of both analyzers:
empty issues, count 0, risk Low, perfect score 100, no error key. -/
def initialReport : SecurityReport :=
  { security_issues := [], vulnerability_count := 0,
    risk_level := "Low", security_score := 100, error := none }

/-- The callee of a Python call expression: `ast.Name` with its id, or
any other expression form (attribute access, subscript, lambda, ...). -/
inductive PyFunc where
  | name (id : String)
  | other
deriving DecidableEq, Repr

/-- One `ast.Call` node as seen by `ast.walk`: its callee and its
1-based source line `lineno`. -/
structure PyCall where
  func : PyFunc
  lineno : Nat
deriving DecidableEq, Repr

/-- The list `dangerous_funcs` of src/report.py line 252. -/
def dangerous_funcs : List String :=
  ["eval", "exec", "pickle.loads", "os.system", "subprocess.call"]

/-- The list `sensitive_ops` of src/report.py line 318. -/
def sensitive_ops : List String :=
  ["DROP TABLE", "TRUNCATE TABLE", "GRANT ALL", "ALTER USER"]

/-- Test whether the first list occurs contiguously inside the second. -/
def infixOf (needle : List Char) : List Char → Bool
  | [] => needle.isEmpty
  | c :: rest => needle.isPrefixOf (c :: rest) || infixOf needle rest

/-- Python's `needle in haystack` substring test on str. -/
def strContains (haystack needle : String) : Bool :=
  infixOf needle.data haystack.data

/-- Python's `str.upper()` for the ASCII content handled here. -/
def upperData (s : String) : List Char :=
  s.data.map Char.toUpper

/-- Membership test of the regex character class `\s` of Python `re`
(space, tab, newline, carriage return, vertical tab, form feed). -/
def isPySpace (c : Char) : Bool :=
  c = ' ' || c = '\t' || c = '\n' || c = '\r' || c.toNat = 11 || c.toNat = 12

/-- Membership test of the character class of a single or double quote,
as in the regex of src/report.py line 264. -/
def isQuote (c : Char) : Bool :=
  c = '"' || c.toNat = 39

/-- Matcher for the regex tail `['\x22][^'\x22]+['\x22]` of the
hardcoded-credentials pattern: an opening quote, at least one
non-quote character, then any quote. The first character after the
opening quote must not be a quote, and some quote must follow; the
characters before the first such quote are automatically non-quotes. -/
def credsRHS : List Char → Bool
  | [] => false
  | c :: rest => !isQuote c && rest.any isQuote

/-- Matcher for the regex tail `\s*=\s*['\x22][^'\x22]+['\x22]`
starting right after one of the credential keywords. -/
def credsAfterKw (cs : List Char) : Bool :=
  match cs.dropWhile isPySpace with
  | '=' :: rest =>
    match rest.dropWhile isPySpace with
    | q :: rest2 => isQuote q && credsRHS rest2
    | [] => false
  | _ => false

/-- Match of the full credentials regex
`(password|passwd|secret|key)\s*=\s*['\x22][^'\x22]+['\x22]` anchored
at the head of the character list. The regex of src/report.py line 264
carries no `re.I` flag, so the keywords match case-sensitively. -/
def credsAt (cs : List Char) : Bool :=
  ["password", "passwd", "secret", "key"].any fun kw =>
    kw.data.isPrefixOf cs && credsAfterKw (cs.drop kw.data.length)

/-- Python's `re.search` of the credentials regex: a match at some
position of the content. -/
def credsSearch : List Char → Bool
  | [] => false
  | c :: rest => credsAt (c :: rest) || credsSearch rest

/-- Search for the earliest occurrence of one of the alternative words
anchored as a prefix somewhere in the list; on success returns the
remainder after the matched word. The alternatives used below are
mutually non-prefix (distinct first characters), so chaining earliest
matches is equivalent to the existence of a regex match. -/
def findAfterWord (alts : List (List Char)) : List Char → Option (List Char)
  | [] => if alts.any List.isEmpty then some [] else none
  | c :: rest =>
    match alts.find? (fun a => List.isPrefixOf a (c :: rest)) with
    | some a => some (List.drop a.length (c :: rest))
    | none => findAfterWord alts rest

/-- Match of the SQL-injection regex
`(SELECT|INSERT|UPDATE|DELETE).*(\+|\|\|).*(input|argv|getenv)` within
one newline-free segment of already lowercased content (the `re.I`
flag lowers both sides; `.` does not cross a newline, and no
alternative contains one, so a match lies within a single line). -/
def sqlInjLine (line : List Char) : Bool :=
  match findAfterWord (["select", "insert", "update", "delete"].map String.data) line with
  | none => false
  | some r1 =>
    match findAfterWord [['+'], ['|', '|']] r1 with
    | none => false
    | some r2 =>
      (findAfterWord (["input", "argv", "getenv"].map String.data) r2).isSome

/-- Split a character list into its newline-separated segments. -/
def splitLines : List Char → List (List Char)
  | [] => [[]]
  | c :: rest =>
    if c = '\n' then [] :: splitLines rest
    else
      match splitLines rest with
      | [] => [[c]]
      | l :: ls => (c :: l) :: ls

/-- Python's `re.search(..., content, re.I)` of the SQL-injection
regex of src/report.py line 308. -/
def sqlInjSearch (content : String) : Bool :=
  (splitLines (content.data.map Char.toLower)).any sqlInjLine

/-- The Pattern Scanner of the Python pipeline (src/report.py lines
251-266): the dangerous-function substring loop, the command-injection
check, and the hardcoded-credentials regex, each paired with its score
penalty, in program order. -/
def pyPatternIssues (content : String) : List (String × Int) :=
  (dangerous_funcs.filterMap fun f =>
    if strContains content f then some ("Dangerous function used: " ++ f, (10 : Int)) else none)
  ++ (if ["input", "argv", "getenv"].any (fun x => strContains content ("system(" ++ x)) then
        [("Potential command injection vulnerability", (15 : Int))] else [])
  ++ (if credsSearch content.data then
        [("Hardcoded credentials detected", (20 : Int))] else [])

/-- The f-string label of a structural finding,
`f"Dangerous function call: {id} at line {lineno}"`. -/
def structLabel (id : String) (lineno : Nat) : String :=
  "Dangerous function call: " ++ id ++ " at line " ++ toString lineno

/-- The Structural Scanner of the Python pipeline (src/report.py lines
268-280): on a parse failure (`none`) the inner `except` swallows the
fault and contributes nothing; on success, every call whose callee is a
bare `ast.Name` whose id is listed in `dangerous_funcs` yields a
line-attributed finding with penalty 10. -/
def pyStructIssues (parsed : Option (List PyCall)) : List (String × Int) :=
  match parsed with
  | none => []
  | some calls =>
    calls.filterMap fun c =>
      match c.func with
      | PyFunc.name id =>
        if id ∈ dangerous_funcs then
          some (structLabel id c.lineno, (10 : Int))
        else none
      | PyFunc.other => none

/-- The Pattern Scanner of the SQL pipeline (src/report.py lines
307-322): the SQL-injection regex, the dynamic-SQL substring check on
the uppercased content, and the sensitive-operation loop. -/
def sqlPatternIssues (content : String) : List (String × Int) :=
  (if sqlInjSearch content then
    [("Potential SQL injection vulnerability", (30 : Int))] else [])
  ++ (if infixOf "EXEC(".data (upperData content)
        || infixOf "EXECUTE IMMEDIATE".data (upperData content) then
        [("Dynamic SQL execution detected", (20 : Int))] else [])
  ++ (sensitive_ops.filterMap fun op =>
      if infixOf op.data (upperData content) then
        some ("Sensitive operation: " ++ op, (15 : Int)) else none)

/-- The SQL statement-classification pass (src/report.py lines 324-332):
a raising `sqlparse.parse` (`none`) is swallowed; otherwise every
statement whose `get_type()` is UNKNOWN yields one finding. -/
def sqlParseIssues (parsed : Option (List String)) : List (String × Int) :=
  match parsed with
  | none => []
  | some types =>
    types.filterMap fun t =>
      if t = "UNKNOWN" then
        some ("Potentially malformed SQL statement", (10 : Int)) else none

/-- Application of one finding to the report under construction: append
its label to security_issues and subtract its penalty from
security_score, exactly the paired statements in the analyzer bodies. -/
def addFinding (r : SecurityReport) (f : String × Int) : SecurityReport :=
  { r with security_issues := r.security_issues ++ [f.1],
           security_score := r.security_score - f.2 }

/-- The final update of both analyzers (src/report.py lines 282-287 and
334-339): set vulnerability_count to the issue count, then reclassify
risk_level as High below 50, Medium below 80, and otherwise leave the
initial Low in place. -/
def classifyRisk (r : SecurityReport) : SecurityReport :=
  if r.security_score < 50 then
    { r with vulnerability_count := r.security_issues.length, risk_level := "High" }
  else if r.security_score < 80 then
    { r with vulnerability_count := r.security_issues.length, risk_level := "Medium" }
  else
    { r with vulnerability_count := r.security_issues.length }

/-- Embedding of `analyze_python_security`: a failing file read hits
the outer `except`, which records the error on the otherwise untouched
initial report; a successful read runs the Pattern Scanner then the
Structural Scanner and classifies the result. -/
def analyze_python_security (readResult : Except String String)
    (parsed : Option (List PyCall)) : SecurityReport :=
  match readResult with
  | Except.error e =>
    { initialReport with error := some ("Security analysis failed: " ++ e) }
  | Except.ok content =>
    classifyRisk ((pyPatternIssues content ++ pyStructIssues parsed).foldl addFinding initialReport)

/-- Embedding of `analyze_sql_security`: same outer error boundary,
with the SQL Pattern Scanner and the statement-classification pass. -/
def analyze_sql_security (readResult : Except String String)
    (parsed : Option (List String)) : SecurityReport :=
  match readResult with
  | Except.error e =>
    { initialReport with error := some ("Security analysis failed: " ++ e) }
  | Except.ok content =>
    classifyRisk ((sqlPatternIssues content ++ sqlParseIssues parsed).foldl addFinding initialReport)

/-- Result of `generate_security_report`: either a full analysis
dictionary, or the one-key dictionary `{error: ...}` returned for an
unsupported file type. -/
inductive ReportResult where
  | report (r : SecurityReport)
  | errorOnly (msg : String)
deriving DecidableEq, Repr

/-- Embedding of `generate_security_report` (src/report.py lines
346-352): dispatch on the filetype tag. -/
def generate_security_report (filetype : String) (readResult : Except String String)
    (pyParsed : Option (List PyCall)) (sqlParsed : Option (List String)) : ReportResult :=
  if filetype = "py" then ReportResult.report (analyze_python_security readResult pyParsed)
  else if filetype = "sql" then ReportResult.report (analyze_sql_security readResult sqlParsed)
  else ReportResult.errorOnly "Unsupported file type for security analysis"

/-- Risk tier as a pure function of the final score, the classification
rule of src/report.py lines 284-287 read off the initial Low value. -/
def riskOfScore (s : Int) : String :=
  if s < 50 then "High" else if s < 80 then "Medium" else "Low"

/-- Modelled from the spec: the case-insensitive variant of the
hardcoded-credentials search that claim C4 and the spec sentence "a
variable named (case-insensitive) one of password|passwd|secret|key"
describe. The code's regex (src/report.py line 264) has no `re.I`
flag; this definition adds the case folding the spec's words call for,
to be compared against `credsSearch`. -/
def credsSearchCI (cs : List Char) : Bool :=
  credsSearch (cs.map Char.toLower)

/-- Single-quote character as a string, used to build SQL sample content. -/
def squote : String := String.singleton (Char.ofNat 39)

/-- Folding `addFinding` over a findings list appends the labels and
subtracts the total penalty, leaving the other fields untouched. -/
lemma foldl_addFinding (fs : List (String × Int)) (r : SecurityReport) :
    fs.foldl addFinding r =
      { r with security_issues := r.security_issues ++ fs.map Prod.fst,
               security_score := r.security_score - (fs.map Prod.snd).sum } := by
  induction fs generalizing r with
  | nil => simp
  | cons f t ih =>
    rw [List.foldl_cons, ih]
    simp [addFinding, sub_sub]

/-- Effect of the final classification step on a report whose
risk_level still holds the initial Low value. -/
lemma classifyRisk_eq (r : SecurityReport) (h : r.risk_level = "Low") :
    classifyRisk r =
      { r with vulnerability_count := r.security_issues.length,
               risk_level := riskOfScore r.security_score } := by
  unfold classifyRisk riskOfScore
  split_ifs <;> simp_all

/-- Closed form of the Python analyzer on a successful read. -/
lemma analyze_py_ok (content : String) (p : Option (List PyCall)) :
    analyze_python_security (Except.ok content) p =
      { security_issues := (pyPatternIssues content ++ pyStructIssues p).map Prod.fst,
        vulnerability_count := ((pyPatternIssues content ++ pyStructIssues p).map Prod.fst).length,
        risk_level := riskOfScore (100 - ((pyPatternIssues content ++ pyStructIssues p).map Prod.snd).sum),
        security_score := 100 - ((pyPatternIssues content ++ pyStructIssues p).map Prod.snd).sum,
        error := none } := by
  have h : analyze_python_security (Except.ok content) p =
      classifyRisk ((pyPatternIssues content ++ pyStructIssues p).foldl addFinding initialReport) := rfl
  rw [h, foldl_addFinding, classifyRisk_eq] <;> simp [initialReport]

/-- Closed form of the SQL analyzer on a successful read. -/
lemma analyze_sql_ok (content : String) (sp : Option (List String)) :
    analyze_sql_security (Except.ok content) sp =
      { security_issues := (sqlPatternIssues content ++ sqlParseIssues sp).map Prod.fst,
        vulnerability_count := ((sqlPatternIssues content ++ sqlParseIssues sp).map Prod.fst).length,
        risk_level := riskOfScore (100 - ((sqlPatternIssues content ++ sqlParseIssues sp).map Prod.snd).sum),
        security_score := 100 - ((sqlPatternIssues content ++ sqlParseIssues sp).map Prod.snd).sum,
        error := none } := by
  have h : analyze_sql_security (Except.ok content) sp =
      classifyRisk ((sqlPatternIssues content ++ sqlParseIssues sp).foldl addFinding initialReport) := rfl
  rw [h, foldl_addFinding, classifyRisk_eq] <;> simp [initialReport]

/-- Membership in the Structural Scanner output produced by a listed
call node. -/
lemma mem_pyStructIssues (calls : List PyCall) (c : PyCall) (hc : c ∈ calls)
    (id : String) (hid : c.func = PyFunc.name id) (hdang : id ∈ dangerous_funcs) :
    (structLabel id c.lineno, (10 : Int)) ∈ pyStructIssues (some calls) := by
  have hrw : pyStructIssues (some calls) = calls.filterMap (fun c =>
      match c.func with
      | PyFunc.name id =>
        if id ∈ dangerous_funcs then some (structLabel id c.lineno, (10 : Int)) else none
      | PyFunc.other => none) := rfl
  rw [hrw]
  refine List.mem_filterMap.mpr ⟨c, hc, ?_⟩
  rw [hid]
  simp [hdang]

/-- C1: for every input and both supported pipelines, the completed
report satisfies vulnerability_count = number of issues and
security_score = 100 minus the total penalty of the findings whose
labels make up security_issues; no floor clamp is applied, witnessed by
a concrete input whose score comes out negative. -/
theorem score_and_count_invariant :
    (∀ (content : String) (p : Option (List PyCall)),
      (analyze_python_security (Except.ok content) p).vulnerability_count
        = (analyze_python_security (Except.ok content) p).security_issues.length ∧
      (analyze_python_security (Except.ok content) p).security_issues
        = (pyPatternIssues content ++ pyStructIssues p).map Prod.fst ∧
      (analyze_python_security (Except.ok content) p).security_score
        = 100 - ((pyPatternIssues content ++ pyStructIssues p).map Prod.snd).sum)
    ∧ (∀ (content : String) (sp : Option (List String)),
      (analyze_sql_security (Except.ok content) sp).vulnerability_count
        = (analyze_sql_security (Except.ok content) sp).security_issues.length ∧
      (analyze_sql_security (Except.ok content) sp).security_issues
        = (sqlPatternIssues content ++ sqlParseIssues sp).map Prod.fst ∧
      (analyze_sql_security (Except.ok content) sp).security_score
        = 100 - ((sqlPatternIssues content ++ sqlParseIssues sp).map Prod.snd).sum)
    ∧ (analyze_python_security (Except.ok "eval(x)")
        (some ((List.range 10).map fun i => ⟨PyFunc.name "eval", i + 1⟩))).security_score
        = -10 := by
  refine ⟨fun content p => ?_, fun content sp => ?_, by decide⟩
  · rw [analyze_py_ok]; exact ⟨rfl, rfl, rfl⟩
  · rw [analyze_sql_ok]; exact ⟨rfl, rfl, rfl⟩

/-- C2: after a completed analysis risk_level is a pure function of the
final score, with High below 50, Medium on [50, 80) and Low at or above
80, ties going to the safer tier. -/
theorem risk_level_pure_of_score :
    (∀ (content : String) (p : Option (List PyCall)),
      (analyze_python_security (Except.ok content) p).risk_level
        = riskOfScore (analyze_python_security (Except.ok content) p).security_score)
    ∧ (∀ (content : String) (sp : Option (List String)),
      (analyze_sql_security (Except.ok content) sp).risk_level
        = riskOfScore (analyze_sql_security (Except.ok content) sp).security_score)
    ∧ (∀ s : Int, riskOfScore s = "Low" ↔ 80 ≤ s)
    ∧ (∀ s : Int, riskOfScore s = "Medium" ↔ 50 ≤ s ∧ s < 80)
    ∧ (∀ s : Int, riskOfScore s = "High" ↔ s < 50) := by
  refine ⟨fun content p => ?_, fun content sp => ?_, fun s => ?_, fun s => ?_, fun s => ?_⟩
  · rw [analyze_py_ok]
  · rw [analyze_sql_ok]
  · unfold riskOfScore; split_ifs <;> simp <;> omega
  · unfold riskOfScore; split_ifs <;> simp <;> omega
  · unfold riskOfScore; split_ifs <;> simp <;> omega

/-- C5: a failing file read is caught at the analyzer boundary of both
pipelines and of the report builder, recorded as an error field
"Security analysis failed: ..." on an otherwise untouched initial
report, and the call returns normally. -/
theorem analysis_failure_boundary :
    ∀ (e : String) (p : Option (List PyCall)) (sp : Option (List String)),
      analyze_python_security (Except.error e) p =
        { initialReport with error := some ("Security analysis failed: " ++ e) } ∧
      analyze_sql_security (Except.error e) sp =
        { initialReport with error := some ("Security analysis failed: " ++ e) } ∧
      generate_security_report "py" (Except.error e) p sp =
        ReportResult.report { initialReport with error := some ("Security analysis failed: " ++ e) } ∧
      generate_security_report "sql" (Except.error e) p sp =
        ReportResult.report { initialReport with error := some ("Security analysis failed: " ++ e) } :=
  fun _ _ _ => ⟨rfl, rfl, rfl, rfl⟩

/-- C6: a Python parse failure contributes zero structural findings, is
not surfaced as an error on the report, and all Pattern Scanner
findings still make up the issue list and the score. -/
theorem parse_failure_swallowed :
    ∀ (content : String),
      pyStructIssues none = [] ∧
      (analyze_python_security (Except.ok content) none).error = none ∧
      (analyze_python_security (Except.ok content) none).security_issues
        = (pyPatternIssues content).map Prod.fst ∧
      (analyze_python_security (Except.ok content) none).security_score
        = 100 - ((pyPatternIssues content).map Prod.snd).sum := by
  intro content
  refine ⟨rfl, ?_, ?_, ?_⟩ <;> rw [analyze_py_ok] <;>
    show _ = _ <;> simp [pyStructIssues]

/-- C7: every filetype other than py and sql yields exactly the
one-field error dictionary and no exception. -/
theorem unsupported_filetype (filetype : String) (rr : Except String String)
    (p : Option (List PyCall)) (sp : Option (List String))
    (hpy : filetype ≠ "py") (hsql : filetype ≠ "sql") :
    generate_security_report filetype rr p sp =
      ReportResult.errorOnly "Unsupported file type for security analysis" := by
  simp [generate_security_report, hpy, hsql]

/-- Witness for C7 at filetype txt. -/
theorem unsupported_filetype_witness :
    generate_security_report "txt" (Except.ok "") none none =
      ReportResult.errorOnly "Unsupported file type for security analysis" :=
  unsupported_filetype "txt" (Except.ok "") none none (by decide) (by decide)

/-- C8: on the sample SQL source the injection regex fires for a
penalty of 30, giving score 70 and risk Medium. -/
theorem sql_injection_sample :
    analyze_sql_security
      (Except.ok ("SELECT * FROM users WHERE id = " ++ squote ++ " + input() "))
      (some ["SELECT"]) =
      { security_issues := ["Potential SQL injection vulnerability"],
        vulnerability_count := 1, risk_level := "Medium", security_score := 70,
        error := none } := by decide

/-- C9: the report builder is a pure function of the file's content and
its parses; two invocations on the same unchanged inputs return
identical reports. -/
theorem analyzer_deterministic (filetype : String)
    (rr1 rr2 : Except String String) (p1 p2 : Option (List PyCall))
    (sp1 sp2 : Option (List String))
    (hr : rr1 = rr2) (hp : p1 = p2) (hs : sp1 = sp2) :
    generate_security_report filetype rr1 p1 sp1
      = generate_security_report filetype rr2 p2 sp2 := by
  rw [hr, hp, hs]

/-- Witness for C9 at a concrete invocation pair. -/
theorem analyzer_deterministic_witness :
    generate_security_report "py" (Except.ok "x = 1") (some []) none
      = generate_security_report "py" (Except.ok "x = 1") (some []) none :=
  analyzer_deterministic "py" (Except.ok "x = 1") (Except.ok "x = 1")
    (some []) (some []) none none rfl rfl rfl

/-- C3: whenever the text contains the substring eval and the parsed
tree holds a bare-name eval call at line 3, both the substring-based
and the structural labels appear in the report; on the concrete
three-line sample both fire, with total penalty 20, score 80 and risk
Low, and no deduplication between the two scanners. -/
theorem eval_duplicate_findings :
    (∀ (content : String) (calls : List PyCall),
      strContains content "eval" = true →
      (⟨PyFunc.name "eval", 3⟩ : PyCall) ∈ calls →
      "Dangerous function used: eval"
        ∈ (analyze_python_security (Except.ok content) (some calls)).security_issues ∧
      structLabel "eval" 3
        ∈ (analyze_python_security (Except.ok content) (some calls)).security_issues)
    ∧ analyze_python_security (Except.ok "a = 1\nb = 2\neval(x)\n")
        (some [⟨PyFunc.name "eval", 3⟩]) =
      { security_issues := ["Dangerous function used: eval",
                            "Dangerous function call: eval at line 3"],
        vulnerability_count := 2, risk_level := "Low", security_score := 80,
        error := none } := by
  constructor
  · intro content calls hsub hmem
    have h1 : ("Dangerous function used: eval", (10 : Int)) ∈ pyPatternIssues content := by
      unfold pyPatternIssues
      simp only [List.mem_append, List.mem_filterMap]
      left; left
      exact ⟨"eval", by simp [dangerous_funcs], by simp [hsub]⟩
    have h2 : (structLabel "eval" 3, (10 : Int)) ∈ pyStructIssues (some calls) :=
      mem_pyStructIssues calls ⟨PyFunc.name "eval", 3⟩ hmem "eval" rfl (by simp [dangerous_funcs])
    rw [analyze_py_ok]
    exact ⟨List.mem_map.mpr ⟨_, List.mem_append_left _ h1, rfl⟩,
           List.mem_map.mpr ⟨_, List.mem_append_right _ h2, rfl⟩⟩
  · decide

/-- Counterexample to C4 as stated: the content consists of a single
assignment whose variable name matches a credential keyword only up to
case, the spec-modelled case-insensitive search accepts it, yet the
code's regex (which has no re.I flag) produces no finding at all. -/
theorem hardcoded_credentials_ci_cex :
    credsSearchCI "PASSWORD = \"abc123\"".data = true ∧
    analyze_python_security (Except.ok "PASSWORD = \"abc123\"") (some []) =
      { security_issues := [], vulnerability_count := 0, risk_level := "Low",
        security_score := 100, error := none } := by decide

/-- C4 amended: the hardcoded-credential heuristic fires, as a single
finding with penalty 20, on content matched by the case-sensitive
regex (lowercase keywords password, passwd, secret, key with a quoted
literal right-hand side); for a file containing only
password = "abc123" the report is exactly the credentials issue with
score 80 and risk Low. -/
theorem hardcoded_credentials_case_sensitive :
    (∀ (content : String) (p : Option (List PyCall)),
      credsSearch content.data = true →
      ("Hardcoded credentials detected", (20 : Int)) ∈ pyPatternIssues content ∧
      "Hardcoded credentials detected"
        ∈ (analyze_python_security (Except.ok content) p).security_issues)
    ∧ analyze_python_security (Except.ok "password = \"abc123\"") (some []) =
      { security_issues := ["Hardcoded credentials detected"],
        vulnerability_count := 1, risk_level := "Low", security_score := 80,
        error := none } := by
  constructor
  · intro content p hc
    have h1 : ("Hardcoded credentials detected", (20 : Int)) ∈ pyPatternIssues content := by
      unfold pyPatternIssues
      simp only [List.mem_append]
      right
      simp [hc]
    refine ⟨h1, ?_⟩
    rw [analyze_py_ok]
    exact List.mem_map.mpr ⟨_, List.mem_append_left _ h1, rfl⟩
  · decide

/-- Witness for the general part of the C3 theorem at the sample file. -/
theorem eval_duplicate_findings_witness :
    "Dangerous function used: eval"
      ∈ (analyze_python_security (Except.ok "a = 1\nb = 2\neval(x)\n")
          (some [⟨PyFunc.name "eval", 3⟩])).security_issues ∧
    structLabel "eval" 3
      ∈ (analyze_python_security (Except.ok "a = 1\nb = 2\neval(x)\n")
          (some [⟨PyFunc.name "eval", 3⟩])).security_issues :=
  eval_duplicate_findings.1 "a = 1\nb = 2\neval(x)\n" [⟨PyFunc.name "eval", 3⟩]
    (by decide) (by decide)

/-- Witness for the general part of the C4 amended theorem. -/
theorem hardcoded_credentials_case_sensitive_witness :
    ("Hardcoded credentials detected", (20 : Int))
      ∈ pyPatternIssues "password = \"abc123\"" ∧
    "Hardcoded credentials detected"
      ∈ (analyze_python_security (Except.ok "password = \"abc123\"") (some [])).security_issues :=
  hardcoded_credentials_case_sensitive.1 "password = \"abc123\"" (some []) (by decide)

/-- Two appended strings differ when their left parts differ at a
common in-bounds position. -/
lemma ne_append_of_get (p q x y : String) (i : Nat) (a b : Char) (hab : a ≠ b)
    (hp : p.data.get? i = some a) (hq : q.data.get? i = some b) :
    p ++ x ≠ q ++ y := by
  intro h
  have hip : i < p.data.length := by
    obtain ⟨hlt, -⟩ := List.get?_eq_some.mp hp
    exact hlt
  have hiq : i < q.data.length := by
    obtain ⟨hlt, -⟩ := List.get?_eq_some.mp hq
    exact hlt
  have hd : p.data ++ x.data = q.data ++ y.data := by
    rw [← String.data_append, ← String.data_append, h]
  have hcontra : some a = some b := by
    calc some a = (p.data ++ x.data).get? i := by rw [List.get?_append hip, hp]
      _ = (q.data ++ y.data).get? i := by rw [hd]
      _ = some b := by rw [List.get?_append hiq, hq]
  exact hab (Option.some.inj hcontra)

/-- A string differs from an appended string when it differs from the
left part at a common in-bounds position. -/
lemma str_ne_append_of_get (s q y : String) (i : Nat) (a b : Char) (hab : a ≠ b)
    (hs : s.data.get? i = some a) (hq : q.data.get? i = some b) :
    s ≠ q ++ y := by
  intro h
  have hiq : i < q.data.length := by
    obtain ⟨hlt, -⟩ := List.get?_eq_some.mp hq
    exact hlt
  have hd : s.data = q.data ++ y.data := by rw [h, String.data_append]
  have hcontra : some a = some b := by
    rw [← hs, hd, List.get?_append hiq, hq]
  exact hab (Option.some.inj hcontra)

/-- Character D opens every structural-label prefix. -/
lemma structPrefix_get0 (id : String) :
    (("Dangerous function call: " ++ id) ++ " at line ").data.get? 0 = some 'D' := by
  have h25 : ("Dangerous function call: ").data.length = 25 := by decide
  rw [String.data_append, String.data_append]
  have h1 : (0 : Nat) < (("Dangerous function call: ").data ++ id.data).length := by
    rw [List.length_append, h25]; omega
  rw [List.get?_append h1, List.get?_append (by rw [h25]; decide)]
  decide

/-- Character c at index 19 of every structural-label prefix. -/
lemma structPrefix_get19 (id : String) :
    (("Dangerous function call: " ++ id) ++ " at line ").data.get? 19 = some 'c' := by
  have h25 : ("Dangerous function call: ").data.length = 25 := by decide
  rw [String.data_append, String.data_append]
  have h1 : (19 : Nat) < (("Dangerous function call: ").data ++ id.data).length := by
    rw [List.length_append, h25]; omega
  rw [List.get?_append h1, List.get?_append (by rw [h25]; decide)]
  decide

/-- Index 25 of a structural-label prefix holds the first character of
the function name it was built from. -/
lemma structPrefix_get25 (id : String) (b : Char) (hb : id.data.get? 0 = some b) :
    (("Dangerous function call: " ++ id) ++ " at line ").data.get? 25 = some b := by
  have h25 : ("Dangerous function call: ").data.length = 25 := by decide
  have hpos : 0 < id.data.length := by
    obtain ⟨hlt, -⟩ := List.get?_eq_some.mp hb
    exact hlt
  rw [String.data_append, String.data_append]
  have h1 : (25 : Nat) < (("Dangerous function call: ").data ++ id.data).length := by
    rw [List.length_append, h25]; omega
  rw [List.get?_append h1, List.get?_append_right (by rw [h25]), h25]
  simpa using hb

/-- Every Pattern Scanner label is one of the seven fixed label forms. -/
lemma pattern_label_forms (content : String) :
    ∀ f ∈ pyPatternIssues content,
      f.1 = "Dangerous function used: eval" ∨
      f.1 = "Dangerous function used: exec" ∨
      f.1 = "Dangerous function used: pickle.loads" ∨
      f.1 = "Dangerous function used: os.system" ∨
      f.1 = "Dangerous function used: subprocess.call" ∨
      f.1 = "Potential command injection vulnerability" ∨
      f.1 = "Hardcoded credentials detected" := by
  intro f hf
  unfold pyPatternIssues at hf
  simp only [List.mem_append] at hf
  rcases hf with (hf | hf) | hf
  · obtain ⟨g, hg, hgf⟩ := List.mem_filterMap.mp hf
    simp only [dangerous_funcs, List.mem_cons, List.not_mem_nil, or_false] at hg
    rcases hg with rfl | rfl | rfl | rfl | rfl <;> split at hgf
    all_goals first
      | exact Option.noConfusion hgf
      | (obtain rfl := Option.some.inj hgf; decide)
  · split at hf
    · obtain rfl := List.mem_singleton.mp hf
      decide
    · exact absurd hf (List.not_mem_nil f)
  · split at hf
    · obtain rfl := List.mem_singleton.mp hf
      decide
    · exact absurd hf (List.not_mem_nil f)

/-- Under the bare-name invariant of Python identifiers (an `ast.Name`
id never contains a dot), every Structural Scanner finding is an eval
or an exec finding. -/
lemma pyStruct_eval_exec (calls : List PyCall)
    (hbare : ∀ c ∈ calls, ∀ id, c.func = PyFunc.name id → '.' ∉ id.data) :
    ∀ f ∈ pyStructIssues (some calls), ∃ n : Nat,
      f = (structLabel "eval" n, (10 : Int)) ∨ f = (structLabel "exec" n, (10 : Int)) := by
  intro f hf
  have hrw : pyStructIssues (some calls) = calls.filterMap (fun c =>
      match c.func with
      | PyFunc.name id =>
        if id ∈ dangerous_funcs then some (structLabel id c.lineno, (10 : Int)) else none
      | PyFunc.other => none) := rfl
  rw [hrw] at hf
  obtain ⟨c, hc, hgc⟩ := List.mem_filterMap.mp hf
  cases hcf : c.func with
  | other =>
    rw [hcf] at hgc
    exact Option.noConfusion hgc
  | name id =>
    rw [hcf] at hgc
    have hgc' : (if id ∈ dangerous_funcs then
        some (structLabel id c.lineno, (10 : Int)) else none) = some f := hgc
    by_cases hd : id ∈ dangerous_funcs
    · rw [if_pos hd] at hgc'
      have hf' := Option.some.inj hgc'
      have hdot := hbare c hc id hcf
      simp only [dangerous_funcs, List.mem_cons, List.not_mem_nil, or_false] at hd
      rcases hd with rfl | rfl | rfl | rfl | rfl
      · exact ⟨c.lineno, Or.inl hf'.symm⟩
      · exact ⟨c.lineno, Or.inr hf'.symm⟩
      · exact absurd (by decide) hdot
      · exact absurd (by decide) hdot
      · exact absurd (by decide) hdot
    · rw [if_neg hd] at hgc'
      exact Option.noConfusion hgc'

/-- No report issue can be a structural label built from a function
name whose first character differs from e, under the bare-name
invariant: Pattern Scanner labels have other fixed forms, and
structural labels name only eval or exec. -/
lemma dotted_label_not_mem (content : String) (calls : List PyCall)
    (hbare : ∀ c ∈ calls, ∀ id, c.func = PyFunc.name id → '.' ∉ id.data)
    (id0 : String) (b : Char) (hb0 : id0.data.get? 0 = some b) (hbe : b ≠ 'e')
    (n : Nat) :
    structLabel id0 n
      ∉ (analyze_python_security (Except.ok content) (some calls)).security_issues := by
  rw [analyze_py_ok]
  intro hmem
  have hmem' : structLabel id0 n
      ∈ (pyPatternIssues content ++ pyStructIssues (some calls)).map Prod.fst := hmem
  obtain ⟨f, hf, hfst⟩ := List.mem_map.mp hmem'
  rcases List.mem_append.mp hf with hf | hf
  · have h7 := pattern_label_forms content f hf
    rcases h7 with h | h | h | h | h | h | h <;> rw [h] at hfst <;>
      first
        | exact str_ne_append_of_get _ _ _ 19 'u' 'c' (by decide) (by decide)
            (structPrefix_get19 id0) hfst
        | exact str_ne_append_of_get _ _ _ 0 'P' 'D' (by decide) (by decide)
            (structPrefix_get0 id0) hfst
        | exact str_ne_append_of_get _ _ _ 0 'H' 'D' (by decide) (by decide)
            (structPrefix_get0 id0) hfst
  · obtain ⟨m, hm | hm⟩ := pyStruct_eval_exec calls hbare f hf <;> rw [hm] at hfst <;>
      simp only [] at hfst <;>
      exact ne_append_of_get _ _ _ _ 25 'e' b (Ne.symm hbe) (by decide)
        (structPrefix_get25 id0 b hb0) hfst

/-- C10: because the Structural Scanner matches only call expressions
whose callee is a bare name, and a Python identifier never contains a
dot, structural findings exist only for eval and exec; in particular no
report carries a line-attributed Dangerous function call issue for
pickle.loads, os.system or subprocess.call. -/
theorem structural_scanner_bare_names_only
    (content : String) (calls : List PyCall)
    (hbare : ∀ c ∈ calls, ∀ id, c.func = PyFunc.name id → '.' ∉ id.data) :
    (∀ f ∈ pyStructIssues (some calls), ∃ n : Nat,
      f = (structLabel "eval" n, (10 : Int)) ∨ f = (structLabel "exec" n, (10 : Int)))
    ∧ (∀ n : Nat,
      structLabel "pickle.loads" n
        ∉ (analyze_python_security (Except.ok content) (some calls)).security_issues ∧
      structLabel "os.system" n
        ∉ (analyze_python_security (Except.ok content) (some calls)).security_issues ∧
      structLabel "subprocess.call" n
        ∉ (analyze_python_security (Except.ok content) (some calls)).security_issues) := by
  refine ⟨pyStruct_eval_exec calls hbare, fun n => ⟨?_, ?_, ?_⟩⟩
  · exact dotted_label_not_mem content calls hbare "pickle.loads" 'p' (by decide) (by decide) n
  · exact dotted_label_not_mem content calls hbare "os.system" 'o' (by decide) (by decide) n
  · exact dotted_label_not_mem content calls hbare "subprocess.call" 's' (by decide) (by decide) n

/-- Witness for C10 at a one-call file. -/
theorem structural_scanner_bare_names_only_witness :
    structLabel "pickle.loads" 3
      ∉ (analyze_python_security (Except.ok "eval(x)")
          (some [⟨PyFunc.name "eval", 1⟩])).security_issues :=
  ((structural_scanner_bare_names_only "eval(x)" [⟨PyFunc.name "eval", 1⟩]
      (by
        intro c hc id hid
        rw [List.mem_singleton] at hc
        subst hc
        injection hid with h
        subst h
        decide)).2 3).1
